import Mathlib

/-!
Verification development for the mercadoBTCUtils trading component: the
TAPI request-signing scheme (HMAC-SHA512 over `{path}?{urlencode(params)}`)
and the trading operations client (`Operations` in `trading/common.py`),
shallowly embedded in Lean 4.

Bytes are modelled as `Nat` values below 256; 64-bit machine words as `Nat`
reduced modulo `2^64` wherever overflow matters.  Python `dict`s (which
preserve insertion order) are modelled as ordered association lists.  The
HTTP transport is an external collaborator: each operation takes the
transport's answer as an explicit argument.
-/

namespace MercadoBTC

/-! ## Hex rendering (Python `hexdigest` emits lowercase hex) -/

/-- The sixteen lowercase hexadecimal digit characters, in value order. -/
def hexDigits : List Char := "0123456789abcdef".data

/-- The sixteen uppercase hexadecimal digit characters (used by Python's
percent-encoding, which renders bytes as `%XX` with uppercase hex). -/
def upperHexDigits : List Char := "0123456789ABCDEF".data

/-- Lowercase hex digit of a value below 16. -/
def hexChar (n : Nat) : Char := hexDigits.getD n '0'

/-- Uppercase hex digit of a value below 16. -/
def upperHex (n : Nat) : Char := upperHexDigits.getD n '0'

/-- Two lowercase hex characters per byte, in order — the character stream of
Python's `hexdigest()`. -/
def hexChars : List Nat → List Char
  | [] => []
  | b :: bs => hexChar (b / 16) :: hexChar (b % 16) :: hexChars bs

/-- Python's `hexdigest()`: the digest bytes rendered as a lowercase-hex
string. -/
def hexdigest (bs : List Nat) : String := ⟨hexChars bs⟩

/-! ## UTF-8 encoding (Python `str.encode('utf-8')`) -/

/-- UTF-8 encoding of a single character, as bytes. -/
def utf8EncodeChar (c : Char) : List Nat :=
  let n := c.toNat
  if n < 0x80 then [n]
  else if n < 0x800 then
    [0xC0 ||| (n >>> 6), 0x80 ||| (n &&& 0x3F)]
  else if n < 0x10000 then
    [0xE0 ||| (n >>> 12), 0x80 ||| ((n >>> 6) &&& 0x3F), 0x80 ||| (n &&& 0x3F)]
  else
    [0xF0 ||| (n >>> 18), 0x80 ||| ((n >>> 12) &&& 0x3F),
     0x80 ||| ((n >>> 6) &&& 0x3F), 0x80 ||| (n &&& 0x3F)]

/-- UTF-8 encoding of a string, as bytes — Python's `s.encode('utf-8')`. -/
def utf8Bytes (s : String) : List Nat :=
  (s.data.map utf8EncodeChar).flatten

/-! ## SHA-512 (FIPS 180-4), on byte lists, words as `Nat` mod `2^64` -/

/-- The 64-bit word modulus. -/
def two64 : Nat := 18446744073709551616

/-- The all-ones 64-bit mask. -/
def mask64 : Nat := 18446744073709551615

/-- Right rotation of a 64-bit word. -/
def rotr (k x : Nat) : Nat := (x >>> k) ||| ((x <<< (64 - k)) % two64)

/-- The SHA-512 `Ch` function. -/
def ch (x y z : Nat) : Nat := (x &&& y) ^^^ ((x ^^^ mask64) &&& z)

/-- The SHA-512 `Maj` function. -/
def maj (x y z : Nat) : Nat := (x &&& y) ^^^ (x &&& z) ^^^ (y &&& z)

/-- The SHA-512 `Σ₀` function. -/
def bigSigma0 (x : Nat) : Nat := rotr 28 x ^^^ rotr 34 x ^^^ rotr 39 x

/-- The SHA-512 `Σ₁` function. -/
def bigSigma1 (x : Nat) : Nat := rotr 14 x ^^^ rotr 18 x ^^^ rotr 41 x

/-- The SHA-512 `σ₀` function. -/
def smallSigma0 (x : Nat) : Nat := rotr 1 x ^^^ rotr 8 x ^^^ (x >>> 7)

/-- The SHA-512 `σ₁` function. -/
def smallSigma1 (x : Nat) : Nat := rotr 19 x ^^^ rotr 61 x ^^^ (x >>> 6)

/-- The eight-word SHA-512 working state. -/
structure S8 where
  a : Nat
  b : Nat
  c : Nat
  d : Nat
  e : Nat
  f : Nat
  g : Nat
  h : Nat
deriving Repr, DecidableEq

/-- The SHA-512 initial hash value H⁽⁰⁾: the first 64 fractional-part bits
of the square roots of the first eight primes (`6a09e667f3bcc908`,
`bb67ae8584caa73b`, `3c6ef372fe94f82b`, `a54ff53a5f1d36f1`,
`510e527fade682d1`, `9b05688c2b3e6c1f`, `1f83d9abfb41bd6b`,
`5be0cd19137e2179`), written in decimal. -/
def sha512Init : S8 :=
  ⟨7640891576956012808, 13503953896175478587,
   4354685564936845355, 11912009170470909681,
   5840696475078001361, 11170449401992604703,
   2270897969802886507, 6620516959819538809⟩

/-- The eighty SHA-512 round constants K: the first 64 fractional-part bits
of the cube roots of the first eighty primes (`428a2f98d728ae22`,
`7137449123ef65cd`, ..., `6c44198c4a475817` in the standard hex listing),
written in decimal.  The whole `sha512` function is pinned against the
FIPS 180-4 test vectors for the empty and `"abc"` messages, which any
error in this table would break. -/
def sha512K : List Nat :=
  [4794697086780616226, 8158064640168781261, 13096744586834688815,
   16840607885511220156, 4131703408338449720, 6480981068601479193,
   10538285296894168987, 12329834152419229976, 15566598209576043074,
   1334009975649890238, 2608012711638119052, 6128411473006802146,
   8268148722764581231, 9286055187155687089, 11230858885718282805,
   13951009754708518548, 16472876342353939154, 17275323862435702243,
   1135362057144423861, 2597628984639134821, 3308224258029322869,
   5365058923640841347, 6679025012923562964, 8573033837759648693,
   10970295158949994411, 12119686244451234320, 12683024718118986047,
   13788192230050041572, 14330467153632333762, 15395433587784984357,
   489312712824947311, 1452737877330783856, 2861767655752347644,
   3322285676063803686, 5560940570517711597, 5996557281743188959,
   7280758554555802590, 8532644243296465576, 9350256976987008742,
   10552545826968843579, 11727347734174303076, 12113106623233404929,
   14000437183269869457, 14369950271660146224, 15101387698204529176,
   15463397548674623760, 17586052441742319658, 1182934255886127544,
   1847814050463011016, 2177327727835720531, 2830643537854262169,
   3796741975233480872, 4115178125766777443, 5681478168544905931,
   6601373596472566643, 7507060721942968483, 8399075790359081724,
   8693463985226723168, 9568029438360202098, 10144078919501101548,
   10430055236837252648, 11840083180663258601, 13761210420658862357,
   14299343276471374635, 14566680578165727644, 15097957966210449927,
   16922976911328602910, 17689382322260857208, 500013540394364858,
   748580250866718886, 1242879168328830382, 1977374033974150939,
   2944078676154940804, 3659926193048069267, 4368137639120453308,
   4836135668995329356, 5532061633213252278, 6448918945643986474,
   6902733635092675308, 7801388544844847127]

/-- The 16-byte big-endian rendering of the message bit length. -/
def be128 (n : Nat) : List Nat :=
  (List.range 16).map fun i => (n >>> (8 * (15 - i))) % 256

/-- SHA-512 message padding: append `0x80`, zeros to 112 mod 128, then the
128-bit big-endian bit length. -/
def sha512Pad (msg : List Nat) : List Nat :=
  msg ++ 0x80 :: (List.replicate ((239 - msg.length % 128) % 128) 0 ++ be128 (8 * msg.length))

/-- Split the padded message into 128-byte blocks. -/
def chunks128 (l : List Nat) : List (List Nat) :=
  match l with
  | [] => []
  | a :: rest => (a :: rest).take 128 :: chunks128 ((a :: rest).drop 128)
termination_by l.length
decreasing_by simp [List.length_drop]; omega

/-- A big-endian word from its bytes. -/
def beWord (bytes : List Nat) : Nat := bytes.foldl (fun acc b => acc * 256 + b) 0

/-- The sixteen message words of one 128-byte block. -/
def blockWords (block : List Nat) : List Nat :=
  (List.range 16).map fun i => beWord ((block.drop (8 * i)).take 8)

/-- Extend sixteen message words to the eighty-word message schedule W. -/
def extendW (ws : List Nat) : List Nat :=
  (List.range 64).foldl
    (fun acc _ =>
      let n := acc.length
      let wt := (smallSigma1 (acc.getD (n - 2) 0) + acc.getD (n - 7) 0 +
                 smallSigma0 (acc.getD (n - 15) 0) + acc.getD (n - 16) 0) % two64
      acc ++ [wt])
    ws

/-- One SHA-512 round: rotate the working variables through T₁ and T₂. -/
def sha512Round (s : S8) (kw : Nat × Nat) : S8 :=
  let t1 := (s.h + bigSigma1 s.e + ch s.e s.f s.g + kw.fst + kw.snd) % two64
  let t2 := (bigSigma0 s.a + maj s.a s.b s.c) % two64
  ⟨(t1 + t2) % two64, s.a, s.b, s.c, (s.d + t1) % two64, s.e, s.f, s.g⟩

/-- Compress one 128-byte block into the running state. -/
def sha512Compress (st : S8) (block : List Nat) : S8 :=
  let w := extendW (blockWords block)
  let t := (sha512K.zip w).foldl sha512Round st
  ⟨(st.a + t.a) % two64, (st.b + t.b) % two64, (st.c + t.c) % two64, (st.d + t.d) % two64,
   (st.e + t.e) % two64, (st.f + t.f) % two64, (st.g + t.g) % two64, (st.h + t.h) % two64⟩

/-- The eight big-endian bytes of one digest word. -/
def wordBytes (w : Nat) : List Nat :=
  [(w >>> 56) % 256, (w >>> 48) % 256, (w >>> 40) % 256, (w >>> 32) % 256,
   (w >>> 24) % 256, (w >>> 16) % 256, (w >>> 8) % 256, w % 256]

/-- SHA-512 of a byte list: the 64 digest bytes. -/
def sha512 (msg : List Nat) : List Nat :=
  let st := (chunks128 (sha512Pad msg)).foldl sha512Compress sha512Init
  wordBytes st.a ++ wordBytes st.b ++ wordBytes st.c ++ wordBytes st.d ++
  wordBytes st.e ++ wordBytes st.f ++ wordBytes st.g ++ wordBytes st.h

/-! ## HMAC

`hmac_new` is the embedding of Python's `hmac.new(key, msg, sha512)` (the
`hmac` module: a key longer than the 128-byte block size is first hashed,
the key is zero-padded to the block size, then the nested inner/outer
digests are computed with the `0x36`/`0x5C` pads).

`hmacSha512Spec` is, separately, the specification's own wording of the
keyed hash ("HMAC-SHA512 semantics: block size 128 bytes, output 64
bytes"), to be compared with the code-derived `hmac_new`. -/

/-- Python's `hmac.new(key, msg, digestmod=sha512).digest()`. -/
def hmac_new (key msg : List Nat) : List Nat :=
  let key := if 128 < key.length then sha512 key else key
  let key := key ++ List.replicate (128 - key.length) 0
  let inner := sha512 (key.map (fun b => b ^^^ 0x36) ++ msg)
  sha512 (key.map (fun b => b ^^^ 0x5C) ++ inner)

/-- HMAC-SHA512 as the specification words it: the key, hashed first if it
exceeds the 128-byte block size and zero-padded to the block size, is
xored with the `ipad`/`opad` constants around the nested SHA-512 calls. -/
def hmacSha512Spec (key text : List Nat) : List Nat :=
  let k0core := if key.length ≤ 128 then key else sha512 key
  let k0 := k0core ++ List.replicate (128 - k0core.length) 0
  sha512 (k0.map (fun b => b ^^^ 0x5C) ++ sha512 (k0.map (fun b => b ^^^ 0x36) ++ text))

/-! ## Python wire values and `urllib.parse.urlencode`

The parameter dictionaries of `trading/common.py` hold strings, ints and
(in one place) a native `bool`; `place_buy_sell_order` also passes two
floats.  Floating point is not modelled: a float value is carried as its
Python `str` rendering, which is all `urlencode` consumes. -/

/-- A Python value as it sits in a request-parameter dict. -/
inductive PyVal where
  /-- A string value. -/
  | pstr (s : String)
  /-- An int value. -/
  | pint (n : Int)
  /-- A native bool value (NOT the string `"true"`/`"false"`). -/
  | pbool (b : Bool)
  /-- A float value, carried as its Python `str` rendering (floating point
  itself is not modelled). -/
  | pfloat (rendering : String)
deriving Repr, DecidableEq

/-- Python `str()` of a wire value (`str(True) = "True"`). -/
def pyStr : PyVal → String
  | .pstr s => s
  | .pint n => toString n
  | .pbool b => if b then "True" else "False"
  | .pfloat r => r

/-- The characters Python's `urllib.parse.quote` never encodes
(ASCII letters, digits, and `_.-~`). -/
def safeChar (c : Char) : Bool :=
  c.isAlpha || c.isDigit || c = '_' || c = '.' || c = '-' || c = '~'

/-- Percent-encode a byte list as `%XX` with uppercase hex. -/
def percentEncode : List Nat → List Char
  | [] => []
  | b :: bs => '%' :: upperHex (b / 16) :: upperHex (b % 16) :: percentEncode bs

/-- Character stream of Python's `quote_plus` with `safe=''`: space becomes
`+`, safe characters pass through, everything else is percent-encoded
byte-by-byte from its UTF-8 encoding. -/
def quotePlusChars : List Char → List Char
  | [] => []
  | c :: cs =>
    (if c = ' ' then ['+']
     else if safeChar c then [c]
     else percentEncode (utf8EncodeChar c)) ++ quotePlusChars cs

/-- Python's `urllib.parse.quote_plus(s)` (with the default `safe=''`). -/
def quote_plus (s : String) : String := ⟨quotePlusChars s.data⟩

/-- Python's `urllib.parse.urlencode` over an insertion-ordered dict:
`quote_plus(k) + '=' + quote_plus(str(v))` pairs joined by `&`, in the
caller-supplied order (no re-sorting). -/
def urlencode (params : List (String × PyVal)) : String :=
  String.intercalate "&" (params.map fun kv => quote_plus kv.1 ++ "=" ++ quote_plus (pyStr kv.2))

/-- Python's `json.dumps` on a list of ints (default separators: `", "`). -/
def dumps_int_list (l : List Int) : String :=
  "[" ++ String.intercalate ", " (l.map toString) ++ "]"

/-! ## The trading client (`Operations` in `trading/common.py`)

Process-wide `ConfigParser` state is passed explicitly as an ordered
section/key table; a missing section or key is a Python `KeyError`.  The
clock-derived `tapi_nonce` is passed explicitly as an integer argument.
The HTTP transport is external: each operation receives the transport's
answer to the one POST it issues.  A response body is carried as the
envelope `response.json()` would produce, or `none` when the body is not
valid JSON (in which case `response.json()` raises). -/

/-- A Python exception escaping to the caller. -/
inductive PyError where
  /-- `KeyError` on a missing mapping key. -/
  | keyError (key : String)
  /-- `TypeError` (e.g. subscripting `None`). -/
  | typeError
  /-- `AttributeError` (e.g. `.items()` on a non-dict). -/
  | attributeError
  /-- `ValueError` from `response.json()` on a non-JSON body. -/
  | valueError
deriving Repr, DecidableEq

/-- A JSON value, as decoded from a response body.  Numbers are carried by
their literal rendering (floating point is not modelled). -/
inductive JVal where
  /-- JSON `null`. -/
  | jnull
  /-- A JSON boolean. -/
  | jbool (b : Bool)
  /-- A JSON number, by its literal text. -/
  | jnum (lit : String)
  /-- A JSON string. -/
  | jstr (s : String)
  /-- A JSON object as an ordered field list. -/
  | jobj (fields : List (String × JVal))
deriving Repr

/-- The `ConfigParser` contents: ordered sections of ordered key/value
pairs. -/
def Config := List (String × List (String × String))

/-- `config[section][key]`: a missing section or key raises `KeyError`. -/
def configGet (cfg : Config) (section_ key : String) : Except PyError String :=
  match List.lookup section_ cfg with
  | none => .error (.keyError section_)
  | some entries =>
    match List.lookup key entries with
    | none => .error (.keyError key)
    | some v => .ok v

/-- The header dict `__build_header` returns. -/
structure Headers where
  /-- The `Content-Type` header. -/
  contentType : String
  /-- The `TAPI-ID` header. -/
  tapiId : String
  /-- The `TAPI-MAC` header. -/
  tapiMac : String
deriving Repr, DecidableEq

/-- The TAPI MAC (`create_tapi_hmac` / the body of `__build_header`): the
params are urlencoded, glued to the path as `{path}?{params}`, and the
HMAC-SHA512 hex digest is taken with the TAPI secret as key, everything
UTF-8 encoded. -/
def create_tapi_hmac (request_path : String) (request_params : List (String × PyVal))
    (tapi_secret : String) : String :=
  let encoded_parameters := urlencode request_params
  let params_string := request_path ++ "?" ++ encoded_parameters
  hexdigest (hmac_new (utf8Bytes tapi_secret) (utf8Bytes params_string))

/-- `Operations.__build_header`: reads `TapiID` and `TapiSecret` from the
configuration (a missing entry raises `KeyError` before anything else
happens) and assembles the three request headers. -/
def build_header (cfg : Config) (request_path : String)
    (request_params : List (String × PyVal)) : Except PyError Headers :=
  match configGet cfg "MercadoBitcoin" "TapiID" with
  | .error e => .error e
  | .ok tapi_id =>
    match configGet cfg "MercadoBitcoin" "TapiSecret" with
    | .error e => .error e
    | .ok tapi_secret =>
      .ok ⟨"application/x-www-form-urlencoded", tapi_id,
           create_tapi_hmac request_path request_params tapi_secret⟩

/-- The one HTTP POST `__execute_tapi` issues: url, headers, and the
urlencoded body (source line `post(url=url, headers=headers,
data=urlencode(params))`). -/
structure PostRequest where
  /-- The request url `{BaseUrl}{endpoint}`. -/
  url : String
  /-- The computed headers. -/
  headers : Headers
  /-- The transmitted form-urlencoded body. -/
  body : String
deriving Repr, DecidableEq

/-- The decoded JSON response envelope. -/
structure Envelope where
  /-- The application-level `status_code` (success sentinel is 100). -/
  status_code : Int
  /-- The server-supplied `error_message`. -/
  error_message : String
  /-- The operation-specific `response_data` payload. -/
  response_data : JVal
deriving Repr

/-- The transport's answer to the POST. -/
structure HttpResponse where
  /-- The HTTP status code. -/
  status_code : Nat
  /-- The HTTP reason phrase. -/
  reason : String
  /-- The body as an envelope, or `none` when not parseable as JSON. -/
  body : Option Envelope
deriving Repr

/-- The request `__execute_tapi` builds before consulting the transport:
headers via `__build_header` on the fixed `/tapi/v3/` endpoint, url from
`BaseUrl`, body `urlencode(params)`. -/
def execute_request (cfg : Config) (params : List (String × PyVal)) :
    Except PyError PostRequest :=
  match build_header cfg "/tapi/v3/" params with
  | .error e => .error e
  | .ok headers =>
    match configGet cfg "MercadoBitcoin" "BaseUrl" with
    | .error e => .error e
    | .ok base => .ok ⟨base ++ "/tapi/v3/", headers, urlencode params⟩

/-- `Operations.__execute_tapi`: build the signed request, issue the POST,
and interpret the transport's answer: a non-200 HTTP status yields `None`
(body never parsed); a 200 with an unparseable body raises from
`response.json()`; an envelope whose `status_code` is not 100 yields
`None`; otherwise the unwrapped `response_data`. -/
def execute_tapi (cfg : Config) (params : List (String × PyVal))
    (resp : HttpResponse) : Except PyError (Option JVal) :=
  match execute_request cfg params with
  | .error e => .error e
  | .ok _req =>
    if resp.status_code ≠ 200 then .ok none
    else
      match resp.body with
      | none => .error .valueError
      | some env =>
        if env.status_code ≠ 100 then .ok none
        else .ok (some env.response_data)

/-- Python `value[key]` where `value` may be `None`: subscripting `None`
raises `TypeError`, a missing key raises `KeyError`. -/
def jSubscript (v : Option JVal) (key : String) : Except PyError JVal :=
  match v with
  | none => .error .typeError
  | some (.jobj fields) =>
    match List.lookup key fields with
    | some x => .ok x
    | none => .error (.keyError key)
  | some _ => .error .typeError

/-! ## The per-operation parameter builders and operation methods -/

/-- The params dict `get_account_info` builds: method tag and nonce only
(no asset filter is ever sent to the server). -/
def get_account_info_params (nonce : Int) : List (String × PyVal) :=
  [("tapi_method", .pstr "get_account_info"), ("tapi_nonce", .pint nonce)]

/-- `Operations.get_account_info`: execute the TAPI call, then take the
`balance` member of the result; when the caller-supplied asset list is
truthy (non-`None` and non-empty), keep only the balance entries whose key
is in that list (the filtering is done locally, after the response). -/
def get_account_info (cfg : Config) (nonce : Int) (assets : Option (List String))
    (resp : HttpResponse) : Except PyError JVal :=
  match execute_tapi cfg (get_account_info_params nonce) resp with
  | .error e => .error e
  | .ok response_data =>
    match assets with
    | some l =>
      if l.isEmpty then jSubscript response_data "balance"
      else
        match jSubscript response_data "balance" with
        | .error e => .error e
        | .ok (.jobj items) => .ok (.jobj (items.filter fun kv => l.contains kv.1))
        | .ok _ => .error .attributeError
    | none => jSubscript response_data "balance"

/-- The params dict `list_orders` builds: method tag, nonce and coin pair
always; each optional filter is appended only when the caller supplied a
non-`None` value.  `status_list` is serialized with `json.dumps`;
`has_fills` is stored as the native bool; the two timestamps are stored as
f-string renderings. -/
def list_orders_params (nonce : Int) (coin_pair : String) (order_type : Option Int)
    (status_list : Option (List Int)) (has_fills : Option Bool)
    (from_id to_id from_timestamp to_timestamp : Option Int) : List (String × PyVal) :=
  let params := [("tapi_method", PyVal.pstr "list_orders"),
                 ("tapi_nonce", PyVal.pint nonce),
                 ("coin_pair", PyVal.pstr coin_pair)]
  let params := match order_type with
    | some v => params ++ [("order_type", PyVal.pint v)]
    | none => params
  let params := match status_list with
    | some v => params ++ [("status_list", PyVal.pstr (dumps_int_list v))]
    | none => params
  let params := match has_fills with
    | some v => params ++ [("has_fills", PyVal.pbool v)]
    | none => params
  let params := match from_id with
    | some v => params ++ [("from_id", PyVal.pint v)]
    | none => params
  let params := match to_id with
    | some v => params ++ [("to_id", PyVal.pint v)]
    | none => params
  let params := match from_timestamp with
    | some v => params ++ [("from_timestamp", PyVal.pstr (toString v))]
    | none => params
  let params := match to_timestamp with
    | some v => params ++ [("to_timestamp", PyVal.pstr (toString v))]
    | none => params
  params

/-- `Operations.list_orders`: build the params and return the executed
call's result unchanged. -/
def list_orders (cfg : Config) (nonce : Int) (coin_pair : String) (order_type : Option Int)
    (status_list : Option (List Int)) (has_fills : Option Bool)
    (from_id to_id from_timestamp to_timestamp : Option Int)
    (resp : HttpResponse) : Except PyError (Option JVal) :=
  execute_tapi cfg
    (list_orders_params nonce coin_pair order_type status_list has_fills
      from_id to_id from_timestamp to_timestamp) resp

/-- The params dict `get_order` builds. -/
def get_order_params (nonce : Int) (coin_pair : String) (order_id : Int) :
    List (String × PyVal) :=
  [("tapi_method", .pstr "get_order"), ("tapi_nonce", .pint nonce),
   ("coin_pair", .pstr coin_pair), ("order_id", .pint order_id)]

/-- `Operations.get_order`. -/
def get_order (cfg : Config) (nonce : Int) (coin_pair : String) (order_id : Int)
    (resp : HttpResponse) : Except PyError (Option JVal) :=
  execute_tapi cfg (get_order_params nonce coin_pair order_id) resp

/-- The params dict `list_order_book` builds: the `full` flag is the string
literal `'true'`/`'false'`, selected from the native bool. -/
def list_order_book_params (nonce : Int) (coin_pair : String) (full : Bool) :
    List (String × PyVal) :=
  [("tapi_method", .pstr "list_orderbook"), ("tapi_nonce", .pint nonce),
   ("coin_pair", .pstr coin_pair), ("full", .pstr (if full then "true" else "false"))]

/-- `Operations.list_order_book`. -/
def list_order_book (cfg : Config) (nonce : Int) (coin_pair : String) (full : Bool)
    (resp : HttpResponse) : Except PyError (Option JVal) :=
  execute_tapi cfg (list_order_book_params nonce coin_pair full) resp

/-- The params dict `place_buy_sell_order` builds: the method tag is chosen
by the `buy` bool; quantity and limit price are floats, carried by their
`str` renderings; the `async` flag is the string literal
`'true'`/`'false'` selected from `wait`. -/
def place_buy_sell_order_params (nonce : Int) (buy : Bool) (coin_pair : String)
    (quantity limit_price : String) (wait : Bool) : List (String × PyVal) :=
  [("tapi_method", .pstr (if buy then "place_buy_order" else "place_sell_order")),
   ("tapi_nonce", .pint nonce), ("coin_pair", .pstr coin_pair),
   ("quantity", .pfloat quantity), ("limit_price", .pfloat limit_price),
   ("async", .pstr (if wait then "true" else "false"))]

/-- `Operations.place_buy_sell_order`. -/
def place_buy_sell_order (cfg : Config) (nonce : Int) (buy : Bool) (coin_pair : String)
    (quantity limit_price : String) (wait : Bool)
    (resp : HttpResponse) : Except PyError (Option JVal) :=
  execute_tapi cfg (place_buy_sell_order_params nonce buy coin_pair quantity limit_price wait) resp

/-- The params dict `cancel_order` builds: the `async` flag is the string
literal `'true'`/`'false'` selected from `wait` (default `False`). -/
def cancel_order_params (nonce : Int) (coin_pair : String) (order_id : Int) (wait : Bool) :
    List (String × PyVal) :=
  [("tapi_method", .pstr "cancel_order"), ("tapi_nonce", .pint nonce),
   ("coin_pair", .pstr coin_pair), ("order_id", .pint order_id),
   ("async", .pstr (if wait then "true" else "false"))]

/-- `Operations.cancel_order`. -/
def cancel_order (cfg : Config) (nonce : Int) (coin_pair : String) (order_id : Int)
    (wait : Bool) (resp : HttpResponse) : Except PyError (Option JVal) :=
  execute_tapi cfg (cancel_order_params nonce coin_pair order_id wait) resp

/-- A fully-populated `MercadoBitcoin` configuration section, as the
package-level `__init__` defaults lay it out. -/
def cfgStd (base id secret : String) : Config :=
  [("MercadoBitcoin", [("BaseUrl", base), ("TapiID", id), ("TapiSecret", secret)])]

/-! ## Helper lemmas -/

theorem hexChars_length (bs : List Nat) : (hexChars bs).length = 2 * bs.length := by
  induction bs with
  | nil => rfl
  | cons b bs ih => simp [hexChars, ih]; omega

theorem hexdigest_length (bs : List Nat) : (hexdigest bs).length = 2 * bs.length := by
  simpa [hexdigest, String.length] using hexChars_length bs

theorem hexChar_mem (n : Nat) (h : n < 16) : hexChar n ∈ hexDigits := by
  interval_cases n <;> decide

theorem hexChars_mem (bs : List Nat) (hb : ∀ b ∈ bs, b < 256) :
    ∀ c ∈ hexChars bs, c ∈ hexDigits := by
  induction bs with
  | nil => intro c hc; cases hc
  | cons b bs ih =>
    intro c hc
    have hblt : b < 256 := hb b (List.mem_cons_self b bs)
    rcases hc with _ | ⟨_, hc⟩
    · exact hexChar_mem _ (by omega)
    · rcases hc with _ | ⟨_, hc⟩
      · exact hexChar_mem _ (by omega)
      · exact ih (fun x hx => hb x (List.mem_cons_of_mem b hx)) c hc

theorem wordBytes_lt (w : Nat) : ∀ b ∈ wordBytes w, b < 256 := by
  intro b hb
  simp only [wordBytes, List.mem_cons, List.not_mem_nil, or_false] at hb
  rcases hb with h | h | h | h | h | h | h | h <;> subst h <;> exact Nat.mod_lt _ (by norm_num)

theorem sha512_length (m : List Nat) : (sha512 m).length = 64 := by
  simp [sha512, wordBytes]

theorem sha512_mem_lt (m : List Nat) : ∀ b ∈ sha512 m, b < 256 := by
  intro b hb
  simp only [sha512, List.mem_append] at hb
  rcases hb with ((((((h | h) | h) | h) | h) | h) | h) | h <;> exact wordBytes_lt _ b h

theorem hmac_new_length (key msg : List Nat) : (hmac_new key msg).length = 64 := by
  simp [hmac_new, sha512_length]

theorem hmac_new_mem_lt (key msg : List Nat) : ∀ b ∈ hmac_new key msg, b < 256 := by
  simp only [hmac_new]
  exact sha512_mem_lt _

/-- The code's `hmac.new(key, msg, sha512)` agrees with the spec-worded
HMAC-SHA512 (block size 128, hash-then-pad key adjustment, nested
`ipad`/`opad` digests). -/
theorem hmac_new_eq_spec (key msg : List Nat) : hmac_new key msg = hmacSha512Spec key msg := by
  by_cases h : 128 < key.length
  · simp [hmac_new, hmacSha512Spec, h, Nat.not_le.mpr h]
  · simp [hmac_new, hmacSha512Spec, h, Nat.not_lt.mp h]

theorem execute_request_eq (cfg : Config) (params : List (String × PyVal))
    (base id secret : String)
    (hid : configGet cfg "MercadoBitcoin" "TapiID" = .ok id)
    (hsec : configGet cfg "MercadoBitcoin" "TapiSecret" = .ok secret)
    (hbase : configGet cfg "MercadoBitcoin" "BaseUrl" = .ok base) :
    execute_request cfg params =
      .ok ⟨base ++ "/tapi/v3/",
           ⟨"application/x-www-form-urlencoded", id, create_tapi_hmac "/tapi/v3/" params secret⟩,
           urlencode params⟩ := by
  simp [execute_request, build_header, hid, hsec, hbase]

theorem execute_tapi_not200 (cfg : Config) (params : List (String × PyVal))
    (resp : HttpResponse) (base id secret : String)
    (hid : configGet cfg "MercadoBitcoin" "TapiID" = .ok id)
    (hsec : configGet cfg "MercadoBitcoin" "TapiSecret" = .ok secret)
    (hbase : configGet cfg "MercadoBitcoin" "BaseUrl" = .ok base)
    (h : resp.status_code ≠ 200) :
    execute_tapi cfg params resp = .ok none := by
  simp [execute_tapi, execute_request_eq cfg params base id secret hid hsec hbase, h]

theorem execute_tapi_appfail (cfg : Config) (params : List (String × PyVal))
    (resp : HttpResponse) (env : Envelope) (base id secret : String)
    (hid : configGet cfg "MercadoBitcoin" "TapiID" = .ok id)
    (hsec : configGet cfg "MercadoBitcoin" "TapiSecret" = .ok secret)
    (hbase : configGet cfg "MercadoBitcoin" "BaseUrl" = .ok base)
    (h200 : resp.status_code = 200) (hb : resp.body = some env)
    (hsc : env.status_code ≠ 100) :
    execute_tapi cfg params resp = .ok none := by
  simp [execute_tapi, execute_request_eq cfg params base id secret hid hsec hbase, h200, hb, hsc]

theorem execute_tapi_success (cfg : Config) (params : List (String × PyVal))
    (resp : HttpResponse) (env : Envelope) (base id secret : String)
    (hid : configGet cfg "MercadoBitcoin" "TapiID" = .ok id)
    (hsec : configGet cfg "MercadoBitcoin" "TapiSecret" = .ok secret)
    (hbase : configGet cfg "MercadoBitcoin" "BaseUrl" = .ok base)
    (h200 : resp.status_code = 200) (hb : resp.body = some env)
    (hsc : env.status_code = 100) :
    execute_tapi cfg params resp = .ok (some env.response_data) := by
  simp [execute_tapi, execute_request_eq cfg params base id secret hid hsec hbase, h200, hb, hsc]

theorem configGet_cfgStd_id (base id secret : String) :
    configGet (cfgStd base id secret) "MercadoBitcoin" "TapiID" = .ok id := rfl

theorem configGet_cfgStd_secret (base id secret : String) :
    configGet (cfgStd base id secret) "MercadoBitcoin" "TapiSecret" = .ok secret := rfl

theorem configGet_cfgStd_base (base id secret : String) :
    configGet (cfgStd base id secret) "MercadoBitcoin" "BaseUrl" = .ok base := rfl

/-! ## Claim C1 -/

/-- C1: for every request path `p`, parameter mapping `P` and non-empty
secret `s`, the produced signature is the lowercase hexadecimal rendering
(128 hex characters, every character a lowercase hex digit) of the
HMAC-SHA512 digest — keyed with the UTF-8 bytes of `s` — of the UTF-8
bytes of `p ++ "?" ++ urlencode P`, where `urlencode P` is the
form-urlencoding of `P` in the caller-supplied key order (pair by pair,
with no re-sorting). -/
theorem signature_is_hmac_sha512_hex (p : String) (P : List (String × PyVal))
    (s : String) (_hs : s ≠ "") :
    create_tapi_hmac p P s =
      hexdigest (hmacSha512Spec (utf8Bytes s) (utf8Bytes (p ++ "?" ++ urlencode P)))
    ∧ (create_tapi_hmac p P s).length = 128
    ∧ (∀ c ∈ (create_tapi_hmac p P s).data, c ∈ hexDigits)
    ∧ urlencode P = String.intercalate "&"
        (P.map fun kv => quote_plus kv.1 ++ "=" ++ quote_plus (pyStr kv.2)) := by
  refine ⟨?_, ?_, ?_, rfl⟩
  · simp only [create_tapi_hmac, hmac_new_eq_spec]
  · simp only [create_tapi_hmac]
    rw [hexdigest_length, hmac_new_length]
  · simp only [create_tapi_hmac]
    exact hexChars_mem _ (hmac_new_mem_lt _ _)

/-- Witness for C1 at a concrete path, parameter mapping and secret. -/
theorem signature_is_hmac_sha512_hex_witness :
    ("secret" ≠ "")
    ∧ (create_tapi_hmac "/tapi/v3/" [("tapi_method", PyVal.pstr "get_account_info")] "secret" =
        hexdigest (hmacSha512Spec (utf8Bytes "secret")
          (utf8Bytes ("/tapi/v3/" ++ "?" ++
            urlencode [("tapi_method", PyVal.pstr "get_account_info")])))
      ∧ (create_tapi_hmac "/tapi/v3/" [("tapi_method", PyVal.pstr "get_account_info")] "secret").length = 128
      ∧ (∀ c ∈ (create_tapi_hmac "/tapi/v3/" [("tapi_method", PyVal.pstr "get_account_info")] "secret").data,
          c ∈ hexDigits)
      ∧ urlencode [("tapi_method", PyVal.pstr "get_account_info")] = String.intercalate "&"
          ([("tapi_method", PyVal.pstr "get_account_info")].map
            fun kv => quote_plus kv.1 ++ "=" ++ quote_plus (pyStr kv.2))) :=
  ⟨by decide, signature_is_hmac_sha512_hex _ _ _ (by decide)⟩

/-! ## Claim C2 -/

/-- C2: for every parameter mapping `params` given to the shared execute
primitive, the transmitted POST body is `urlencode params`, and the MAC is
computed over `"/tapi/v3/" ++ "?" ++ urlencode params` — so the encoded
query string after the `?` in the signed string is byte-identical to the
transmitted body. -/
theorem signed_query_equals_transmitted_body (cfg : Config)
    (params : List (String × PyVal)) (base id secret : String)
    (hid : configGet cfg "MercadoBitcoin" "TapiID" = .ok id)
    (hsec : configGet cfg "MercadoBitcoin" "TapiSecret" = .ok secret)
    (hbase : configGet cfg "MercadoBitcoin" "BaseUrl" = .ok base) :
    execute_request cfg params =
      .ok ⟨base ++ "/tapi/v3/",
           ⟨"application/x-www-form-urlencoded", id, create_tapi_hmac "/tapi/v3/" params secret⟩,
           urlencode params⟩
    ∧ create_tapi_hmac "/tapi/v3/" params secret =
        hexdigest (hmac_new (utf8Bytes secret)
          (utf8Bytes ("/tapi/v3/" ++ "?" ++ urlencode params))) := by
  exact ⟨execute_request_eq cfg params base id secret hid hsec hbase, rfl⟩

/-- Witness for C2 at a concrete configuration and parameter mapping. -/
theorem signed_query_equals_transmitted_body_witness :
    execute_request (cfgStd "https://www.mercadobitcoin.net" "myid" "mysecret")
        [("tapi_method", PyVal.pstr "get_order"), ("tapi_nonce", PyVal.pint 7)] =
      .ok ⟨"https://www.mercadobitcoin.net" ++ "/tapi/v3/",
           ⟨"application/x-www-form-urlencoded", "myid",
            create_tapi_hmac "/tapi/v3/"
              [("tapi_method", PyVal.pstr "get_order"), ("tapi_nonce", PyVal.pint 7)] "mysecret"⟩,
           urlencode [("tapi_method", PyVal.pstr "get_order"), ("tapi_nonce", PyVal.pint 7)]⟩
    ∧ create_tapi_hmac "/tapi/v3/"
          [("tapi_method", PyVal.pstr "get_order"), ("tapi_nonce", PyVal.pint 7)] "mysecret" =
        hexdigest (hmac_new (utf8Bytes "mysecret")
          (utf8Bytes ("/tapi/v3/" ++ "?" ++
            urlencode [("tapi_method", PyVal.pstr "get_order"), ("tapi_nonce", PyVal.pint 7)]))) :=
  signed_query_equals_transmitted_body _ _ _ _ _ rfl rfl rfl

/-! ## Claim C3 (corrected) -/

/-- C3 counterexample: with the transport returning HTTP 200 and the
envelope `status_code: 200, error_message: "bad nonce"`, `get_account_info`
does not return a failure indicator carrying `"bad nonce"`: it raises a
`TypeError` (subscripting the `None` failure result of the execute
primitive), so an exception escapes to the caller. -/
theorem application_failure_raises_in_get_account_info :
    get_account_info (cfgStd "https://www.mercadobitcoin.net" "myid" "mysecret") 1 none
        ⟨200, "OK", some ⟨200, "bad nonce", .jobj [("balance", .jobj [])]⟩⟩ =
      .error .typeError := by
  have h := execute_tapi_appfail
    (cfgStd "https://www.mercadobitcoin.net" "myid" "mysecret")
    (get_account_info_params 1)
    ⟨200, "OK", some ⟨200, "bad nonce", .jobj [("balance", .jobj [])]⟩⟩
    ⟨200, "bad nonce", .jobj [("balance", .jobj [])]⟩
    "https://www.mercadobitcoin.net" "myid" "mysecret"
    rfl rfl rfl rfl rfl (by decide)
  simp [get_account_info, h, jSubscript]

/-- C3 amended: when the transport returns HTTP 200 but the envelope's
`status_code` differs from 100, the shared execute primitive returns
`None` as the failure indicator — the server-supplied `error_message` is
not carried in the returned value — and the operations that return the
primitive's result directly propagate that `None` without an exception;
`get_account_info`, however, raises a `TypeError` on the `None` result,
whatever asset filter was passed. -/
theorem application_failure_yields_bare_none (cfg : Config) (base id secret : String)
    (nonce : Int) (coin_pair quantity limit_price : String) (order_id : Int)
    (order_type : Option Int) (status_list : Option (List Int)) (has_fills : Option Bool)
    (from_id to_id from_timestamp to_timestamp : Option Int)
    (full buy wait : Bool) (resp : HttpResponse) (env : Envelope)
    (hid : configGet cfg "MercadoBitcoin" "TapiID" = .ok id)
    (hsec : configGet cfg "MercadoBitcoin" "TapiSecret" = .ok secret)
    (hbase : configGet cfg "MercadoBitcoin" "BaseUrl" = .ok base)
    (h200 : resp.status_code = 200) (hb : resp.body = some env)
    (hsc : env.status_code ≠ 100) :
    execute_tapi cfg (get_account_info_params nonce) resp = .ok none
    ∧ list_orders cfg nonce coin_pair order_type status_list has_fills
        from_id to_id from_timestamp to_timestamp resp = .ok none
    ∧ get_order cfg nonce coin_pair order_id resp = .ok none
    ∧ list_order_book cfg nonce coin_pair full resp = .ok none
    ∧ place_buy_sell_order cfg nonce buy coin_pair quantity limit_price wait resp = .ok none
    ∧ cancel_order cfg nonce coin_pair order_id wait resp = .ok none
    ∧ (∀ assets : Option (List String),
        get_account_info cfg nonce assets resp = .error .typeError) := by
  refine ⟨?_, ?_, ?_, ?_, ?_, ?_, ?_⟩
  · exact execute_tapi_appfail cfg _ resp env base id secret hid hsec hbase h200 hb hsc
  · exact execute_tapi_appfail cfg _ resp env base id secret hid hsec hbase h200 hb hsc
  · exact execute_tapi_appfail cfg _ resp env base id secret hid hsec hbase h200 hb hsc
  · exact execute_tapi_appfail cfg _ resp env base id secret hid hsec hbase h200 hb hsc
  · exact execute_tapi_appfail cfg _ resp env base id secret hid hsec hbase h200 hb hsc
  · exact execute_tapi_appfail cfg _ resp env base id secret hid hsec hbase h200 hb hsc
  · intro assets
    have h := execute_tapi_appfail cfg (get_account_info_params nonce) resp env
      base id secret hid hsec hbase h200 hb hsc
    cases assets with
    | none => simp [get_account_info, h, jSubscript]
    | some l =>
      by_cases hl : l.isEmpty <;> simp [get_account_info, h, jSubscript, hl]

/-- Witness for the amended C3 at a concrete failing envelope. -/
theorem application_failure_yields_bare_none_witness :
    execute_tapi (cfgStd "https://www.mercadobitcoin.net" "myid" "mysecret")
        (get_account_info_params 1)
        ⟨200, "OK", some ⟨200, "bad nonce", .jnull⟩⟩ = .ok none
    ∧ list_orders (cfgStd "https://www.mercadobitcoin.net" "myid" "mysecret") 1 "BRLBTC"
        none none none none none none none
        ⟨200, "OK", some ⟨200, "bad nonce", .jnull⟩⟩ = .ok none
    ∧ get_order (cfgStd "https://www.mercadobitcoin.net" "myid" "mysecret") 1 "BRLBTC" 5
        ⟨200, "OK", some ⟨200, "bad nonce", .jnull⟩⟩ = .ok none
    ∧ list_order_book (cfgStd "https://www.mercadobitcoin.net" "myid" "mysecret") 1 "BRLBTC" false
        ⟨200, "OK", some ⟨200, "bad nonce", .jnull⟩⟩ = .ok none
    ∧ place_buy_sell_order (cfgStd "https://www.mercadobitcoin.net" "myid" "mysecret") 1 true
        "BRLBTC" "0.5" "100000.0" true
        ⟨200, "OK", some ⟨200, "bad nonce", .jnull⟩⟩ = .ok none
    ∧ cancel_order (cfgStd "https://www.mercadobitcoin.net" "myid" "mysecret") 1 "BRLBTC" 5 false
        ⟨200, "OK", some ⟨200, "bad nonce", .jnull⟩⟩ = .ok none
    ∧ (∀ assets : Option (List String),
        get_account_info (cfgStd "https://www.mercadobitcoin.net" "myid" "mysecret") 1 assets
          ⟨200, "OK", some ⟨200, "bad nonce", .jnull⟩⟩ = .error .typeError) :=
  application_failure_yields_bare_none _ _ _ _ _ _ _ _ _ _ _ _ _ _ _ _ _ _ _ _
    ⟨200, "bad nonce", .jnull⟩ rfl rfl rfl rfl rfl (by decide)

/-! ## Claim C4 (corrected) -/

/-- C4 counterexample: on an HTTP 500 with a non-JSON body,
`get_account_info` does not return a failure result: the execute
primitive returns `None` and `get_account_info` subscripts it, raising a
`TypeError` that escapes to the caller. -/
theorem transport_failure_raises_in_get_account_info :
    get_account_info (cfgStd "https://www.mercadobitcoin.net" "myid" "mysecret") 1 none
        ⟨500, "Internal Server Error", none⟩ = .error .typeError := by
  have h := execute_tapi_not200
    (cfgStd "https://www.mercadobitcoin.net" "myid" "mysecret")
    (get_account_info_params 1) ⟨500, "Internal Server Error", none⟩
    "https://www.mercadobitcoin.net" "myid" "mysecret"
    rfl rfl rfl (by decide)
  simp [get_account_info, h, jSubscript]

/-- C4 amended: on a transport-level non-200 status the shared execute
primitive returns the failure indicator `None` whatever the response body
holds — including a body that is not parseable JSON at all (`b = none`),
which would raise if `response.json()` were attempted — so the body is
never parsed, and the single consumed response reflects that no retry is
issued; the operations that return the primitive's result directly
propagate that `None` as their failure result, but `get_account_info`
raises a `TypeError` on the `None` result, whatever asset filter was
passed. -/
theorem transport_failure_yields_bare_none (cfg : Config) (base id secret : String)
    (nonce : Int) (coin_pair quantity limit_price : String) (order_id : Int)
    (order_type : Option Int) (status_list : Option (List Int)) (has_fills : Option Bool)
    (from_id to_id from_timestamp to_timestamp : Option Int)
    (full buy wait : Bool) (n : Nat) (r : String) (b : Option Envelope)
    (hid : configGet cfg "MercadoBitcoin" "TapiID" = .ok id)
    (hsec : configGet cfg "MercadoBitcoin" "TapiSecret" = .ok secret)
    (hbase : configGet cfg "MercadoBitcoin" "BaseUrl" = .ok base)
    (hn : n ≠ 200) :
    execute_tapi cfg (get_account_info_params nonce) ⟨n, r, b⟩ = .ok none
    ∧ list_orders cfg nonce coin_pair order_type status_list has_fills
        from_id to_id from_timestamp to_timestamp ⟨n, r, b⟩ = .ok none
    ∧ get_order cfg nonce coin_pair order_id ⟨n, r, b⟩ = .ok none
    ∧ list_order_book cfg nonce coin_pair full ⟨n, r, b⟩ = .ok none
    ∧ place_buy_sell_order cfg nonce buy coin_pair quantity limit_price wait ⟨n, r, b⟩ =
        .ok none
    ∧ cancel_order cfg nonce coin_pair order_id wait ⟨n, r, b⟩ = .ok none
    ∧ (∀ assets : Option (List String),
        get_account_info cfg nonce assets ⟨n, r, b⟩ = .error .typeError) := by
  refine ⟨?_, ?_, ?_, ?_, ?_, ?_, ?_⟩
  · exact execute_tapi_not200 cfg _ ⟨n, r, b⟩ base id secret hid hsec hbase hn
  · exact execute_tapi_not200 cfg _ ⟨n, r, b⟩ base id secret hid hsec hbase hn
  · exact execute_tapi_not200 cfg _ ⟨n, r, b⟩ base id secret hid hsec hbase hn
  · exact execute_tapi_not200 cfg _ ⟨n, r, b⟩ base id secret hid hsec hbase hn
  · exact execute_tapi_not200 cfg _ ⟨n, r, b⟩ base id secret hid hsec hbase hn
  · exact execute_tapi_not200 cfg _ ⟨n, r, b⟩ base id secret hid hsec hbase hn
  · intro assets
    have h := execute_tapi_not200 cfg (get_account_info_params nonce) ⟨n, r, b⟩
      base id secret hid hsec hbase hn
    cases assets with
    | none => simp [get_account_info, h, jSubscript]
    | some l =>
      by_cases hl : l.isEmpty <;> simp [get_account_info, h, jSubscript, hl]

/-- Witness for the amended C4 at an HTTP 500 with a non-JSON body. -/
theorem transport_failure_yields_bare_none_witness :
    execute_tapi (cfgStd "https://www.mercadobitcoin.net" "myid" "mysecret")
        (get_account_info_params 1) ⟨500, "Internal Server Error", none⟩ = .ok none
    ∧ list_orders (cfgStd "https://www.mercadobitcoin.net" "myid" "mysecret") 1 "BRLBTC"
        none none none none none none none ⟨500, "Internal Server Error", none⟩ = .ok none
    ∧ get_order (cfgStd "https://www.mercadobitcoin.net" "myid" "mysecret") 1 "BRLBTC" 5
        ⟨500, "Internal Server Error", none⟩ = .ok none
    ∧ list_order_book (cfgStd "https://www.mercadobitcoin.net" "myid" "mysecret") 1 "BRLBTC"
        false ⟨500, "Internal Server Error", none⟩ = .ok none
    ∧ place_buy_sell_order (cfgStd "https://www.mercadobitcoin.net" "myid" "mysecret") 1 true
        "BRLBTC" "0.5" "100000.0" true ⟨500, "Internal Server Error", none⟩ = .ok none
    ∧ cancel_order (cfgStd "https://www.mercadobitcoin.net" "myid" "mysecret") 1 "BRLBTC" 5
        false ⟨500, "Internal Server Error", none⟩ = .ok none
    ∧ (∀ assets : Option (List String),
        get_account_info (cfgStd "https://www.mercadobitcoin.net" "myid" "mysecret") 1 assets
          ⟨500, "Internal Server Error", none⟩ = .error .typeError) :=
  transport_failure_yields_bare_none _ _ _ _ 1 "BRLBTC" "0.5" "100000.0" 5
    none none none none none none none false true true 500 "Internal Server Error" none
    rfl rfl rfl (by decide)

/-! ## Claim C5 (corrected) -/

/-- C5 counterexample: on a successful envelope whose `response_data` is
`{balance: {btc: 1.0}, extra: 7}`, `get_account_info` returns only the
`balance` member `{btc: 1.0}` — a proper sub-part of the payload, not the
whole unwrapped `response_data`. -/
theorem get_account_info_returns_subpart :
    get_account_info (cfgStd "https://www.mercadobitcoin.net" "myid" "mysecret") 1 none
        ⟨200, "OK", some ⟨100, "",
          .jobj [("balance", .jobj [("btc", .jnum "1.0")]), ("extra", .jnum "7")]⟩⟩ =
      .ok (.jobj [("btc", .jnum "1.0")])
    ∧ JVal.jobj [("btc", .jnum "1.0")] ≠
        JVal.jobj [("balance", .jobj [("btc", .jnum "1.0")]), ("extra", .jnum "7")] := by
  constructor
  · have h := execute_tapi_success
      (cfgStd "https://www.mercadobitcoin.net" "myid" "mysecret")
      (get_account_info_params 1)
      ⟨200, "OK", some ⟨100, "",
        .jobj [("balance", .jobj [("btc", .jnum "1.0")]), ("extra", .jnum "7")]⟩⟩
      ⟨100, "", .jobj [("balance", .jobj [("btc", .jnum "1.0")]), ("extra", .jnum "7")]⟩
      "https://www.mercadobitcoin.net" "myid" "mysecret"
      rfl rfl rfl rfl rfl rfl
    simp [get_account_info, h, jSubscript, List.lookup]
  · simp

/-- C5 amended: on HTTP 200 with envelope `status_code = 100`, the shared
execute primitive and every operation method except `get_account_info`
return the whole unwrapped `response_data`; `get_account_info` instead
returns the `balance` member of that payload (filtered when a non-empty
asset list is supplied). -/
theorem success_returns_unwrapped_payload (cfg : Config) (base id secret : String)
    (nonce : Int) (coin_pair quantity limit_price : String) (order_id : Int)
    (order_type : Option Int) (status_list : Option (List Int)) (has_fills : Option Bool)
    (from_id to_id from_timestamp to_timestamp : Option Int)
    (full buy wait : Bool) (resp : HttpResponse) (env : Envelope)
    (pfields : List (String × JVal)) (bal : JVal)
    (hid : configGet cfg "MercadoBitcoin" "TapiID" = .ok id)
    (hsec : configGet cfg "MercadoBitcoin" "TapiSecret" = .ok secret)
    (hbase : configGet cfg "MercadoBitcoin" "BaseUrl" = .ok base)
    (h200 : resp.status_code = 200) (hb : resp.body = some env)
    (hsc : env.status_code = 100)
    (hpf : env.response_data = .jobj pfields)
    (hbal : List.lookup "balance" pfields = some bal) :
    list_orders cfg nonce coin_pair order_type status_list has_fills
        from_id to_id from_timestamp to_timestamp resp = .ok (some env.response_data)
    ∧ get_order cfg nonce coin_pair order_id resp = .ok (some env.response_data)
    ∧ list_order_book cfg nonce coin_pair full resp = .ok (some env.response_data)
    ∧ place_buy_sell_order cfg nonce buy coin_pair quantity limit_price wait resp =
        .ok (some env.response_data)
    ∧ cancel_order cfg nonce coin_pair order_id wait resp = .ok (some env.response_data)
    ∧ get_account_info cfg nonce none resp = .ok bal := by
  refine ⟨?_, ?_, ?_, ?_, ?_, ?_⟩
  · exact execute_tapi_success cfg _ resp env base id secret hid hsec hbase h200 hb hsc
  · exact execute_tapi_success cfg _ resp env base id secret hid hsec hbase h200 hb hsc
  · exact execute_tapi_success cfg _ resp env base id secret hid hsec hbase h200 hb hsc
  · exact execute_tapi_success cfg _ resp env base id secret hid hsec hbase h200 hb hsc
  · exact execute_tapi_success cfg _ resp env base id secret hid hsec hbase h200 hb hsc
  · have h := execute_tapi_success cfg (get_account_info_params nonce) resp env
      base id secret hid hsec hbase h200 hb hsc
    simp [get_account_info, h, jSubscript, hpf, hbal]

/-- Witness for the amended C5 at a concrete successful envelope. -/
theorem success_returns_unwrapped_payload_witness :
    list_orders (cfgStd "https://www.mercadobitcoin.net" "myid" "mysecret") 1 "BRLBTC"
        none none none none none none none
        ⟨200, "OK", some ⟨100, "", .jobj [("balance", .jobj [("btc", .jnum "1.0")])]⟩⟩ =
      .ok (some (Envelope.mk 100 ""
        (.jobj [("balance", .jobj [("btc", .jnum "1.0")])])).response_data)
    ∧ get_order (cfgStd "https://www.mercadobitcoin.net" "myid" "mysecret") 1 "BRLBTC" 5
        ⟨200, "OK", some ⟨100, "", .jobj [("balance", .jobj [("btc", .jnum "1.0")])]⟩⟩ =
      .ok (some (Envelope.mk 100 ""
        (.jobj [("balance", .jobj [("btc", .jnum "1.0")])])).response_data)
    ∧ list_order_book (cfgStd "https://www.mercadobitcoin.net" "myid" "mysecret") 1 "BRLBTC" true
        ⟨200, "OK", some ⟨100, "", .jobj [("balance", .jobj [("btc", .jnum "1.0")])]⟩⟩ =
      .ok (some (Envelope.mk 100 ""
        (.jobj [("balance", .jobj [("btc", .jnum "1.0")])])).response_data)
    ∧ place_buy_sell_order (cfgStd "https://www.mercadobitcoin.net" "myid" "mysecret") 1 false
        "BRLBTC" "0.5" "100000.0" false
        ⟨200, "OK", some ⟨100, "", .jobj [("balance", .jobj [("btc", .jnum "1.0")])]⟩⟩ =
      .ok (some (Envelope.mk 100 ""
        (.jobj [("balance", .jobj [("btc", .jnum "1.0")])])).response_data)
    ∧ cancel_order (cfgStd "https://www.mercadobitcoin.net" "myid" "mysecret") 1 "BRLBTC" 5 true
        ⟨200, "OK", some ⟨100, "", .jobj [("balance", .jobj [("btc", .jnum "1.0")])]⟩⟩ =
      .ok (some (Envelope.mk 100 ""
        (.jobj [("balance", .jobj [("btc", .jnum "1.0")])])).response_data)
    ∧ get_account_info (cfgStd "https://www.mercadobitcoin.net" "myid" "mysecret") 1 none
        ⟨200, "OK", some ⟨100, "", .jobj [("balance", .jobj [("btc", .jnum "1.0")])]⟩⟩ =
      .ok (.jobj [("btc", .jnum "1.0")]) :=
  success_returns_unwrapped_payload _ _ _ _ _ "BRLBTC" "0.5" "100000.0" 5
    none none none none none none none true false true _
    ⟨100, "", .jobj [("balance", .jobj [("btc", .jnum "1.0")])]⟩
    [("balance", .jobj [("btc", .jnum "1.0")])] (.jobj [("btc", .jnum "1.0")])
    rfl rfl rfl rfl rfl rfl rfl rfl

/-! ## Claim C6 -/

/-- C6: with a non-empty asset filter, `get_account_info` returns exactly
the entries of the server-returned balance mapping whose keys are in the
filter list — the filtering is applied locally to whatever balance the
server returned — and the request parameters sent to the server carry no
filter at all (method tag and nonce only). -/
theorem asset_filtering_is_local (cfg : Config) (base id secret : String)
    (nonce : Int) (assets : List String) (r msg : String)
    (pfields bfields : List (String × JVal))
    (hid : configGet cfg "MercadoBitcoin" "TapiID" = .ok id)
    (hsec : configGet cfg "MercadoBitcoin" "TapiSecret" = .ok secret)
    (hbase : configGet cfg "MercadoBitcoin" "BaseUrl" = .ok base)
    (hbal : List.lookup "balance" pfields = some (.jobj bfields))
    (hne : assets ≠ []) :
    get_account_info cfg nonce (some assets) ⟨200, r, some ⟨100, msg, .jobj pfields⟩⟩ =
      .ok (.jobj (bfields.filter fun kv => assets.contains kv.1))
    ∧ get_account_info_params nonce =
        [("tapi_method", .pstr "get_account_info"), ("tapi_nonce", .pint nonce)] := by
  have h := execute_tapi_success cfg (get_account_info_params nonce)
    ⟨200, r, some ⟨100, msg, .jobj pfields⟩⟩ ⟨100, msg, .jobj pfields⟩
    base id secret hid hsec hbase rfl rfl rfl
  have hempty : assets.isEmpty = false := by
    cases assets with
    | nil => exact absurd rfl hne
    | cons a l => rfl
  exact ⟨by simp [get_account_info, h, jSubscript, hbal, hempty], rfl⟩

/-- Witness for C6: the specification's own example — `assets=['btc']`
against a server balance `{btc: 1.0, brl: 500.0}` returns `{btc: 1.0}`
only. -/
theorem asset_filtering_is_local_witness :
    get_account_info (cfgStd "https://www.mercadobitcoin.net" "myid" "mysecret") 1
        (some ["btc"])
        ⟨200, "OK", some ⟨100, "",
          .jobj [("balance", .jobj [("btc", .jnum "1.0"), ("brl", .jnum "500.0")])]⟩⟩ =
      .ok (.jobj [("btc", .jnum "1.0")])
    ∧ get_account_info_params 1 =
        [("tapi_method", .pstr "get_account_info"), ("tapi_nonce", .pint 1)] := by
  have h := asset_filtering_is_local
    (cfgStd "https://www.mercadobitcoin.net" "myid" "mysecret")
    "https://www.mercadobitcoin.net" "myid" "mysecret" 1 ["btc"] "OK" ""
    [("balance", .jobj [("btc", .jnum "1.0"), ("brl", .jnum "500.0")])]
    [("btc", .jnum "1.0"), ("brl", .jnum "500.0")]
    rfl rfl rfl rfl (by decide)
  refine ⟨?_, h.2⟩
  rw [h.1]
  rfl

/-! ## Claim C7 (corrected) -/

/-- C7 counterexample: the JSON-array text `"[1, 3]"` of `status_list=[1,3]`
URL-encodes to `status_list=%5B1%2C+3%5D` — the space is encoded as `+` by
the form-urlencoder — not to `status_list=%5B1%2C%203%5D` as the claim's
example states. -/
theorem status_list_urlencodes_with_plus :
    urlencode [("status_list", .pstr (dumps_int_list [1, 3]))] = "status_list=%5B1%2C+3%5D"
    ∧ "status_list=%5B1%2C+3%5D" ≠ "status_list=%5B1%2C%203%5D" := by
  exact ⟨rfl, by decide⟩

/-- C7 amended: every optional `list_orders` filter the caller does not
supply is entirely absent from the wire parameter mapping (the mapping is
exactly the three required entries, and each optional key looks up to
nothing), and a supplied `status_list` is encoded as the JSON-array text
of the list (`[1, 3]` as the string `"[1, 3]"`, which URL-encodes to
`status_list=%5B1%2C+3%5D`, the space rendered as `+`). -/
theorem optional_filters_absent_status_list_json (nonce : Int) (cp : String) :
    list_orders_params nonce cp none none none none none none none =
      [("tapi_method", .pstr "list_orders"), ("tapi_nonce", .pint nonce),
       ("coin_pair", .pstr cp)]
    ∧ List.lookup "order_type" (list_orders_params nonce cp none none none none none none none) = none
    ∧ List.lookup "status_list" (list_orders_params nonce cp none none none none none none none) = none
    ∧ List.lookup "has_fills" (list_orders_params nonce cp none none none none none none none) = none
    ∧ List.lookup "from_id" (list_orders_params nonce cp none none none none none none none) = none
    ∧ List.lookup "to_id" (list_orders_params nonce cp none none none none none none none) = none
    ∧ List.lookup "from_timestamp" (list_orders_params nonce cp none none none none none none none) = none
    ∧ List.lookup "to_timestamp" (list_orders_params nonce cp none none none none none none none) = none
    ∧ (∀ sl : List Int,
        List.lookup "status_list" (list_orders_params nonce cp none (some sl) none none none none none) =
          some (.pstr (dumps_int_list sl)))
    ∧ dumps_int_list [1, 3] = "[1, 3]"
    ∧ urlencode [("status_list", .pstr (dumps_int_list [1, 3]))] = "status_list=%5B1%2C+3%5D" :=
  ⟨rfl, rfl, rfl, rfl, rfl, rfl, rfl, rfl, fun _ => rfl, rfl, rfl⟩

/-! ## Claim C8 (corrected) -/

/-- C8 counterexample: `list_orders` with `has_fills=True` transmits the
wire value `True` — Python's default boolean-to-string conversion — not
the string literal `"true"` the claim asserts for every boolean flag. -/
theorem has_fills_reaches_wire_as_python_bool :
    urlencode (list_orders_params 1 "BRLBTC" none none (some true) none none none none) =
      "tapi_method=list_orders&tapi_nonce=1&coin_pair=BRLBTC&has_fills=True"
    ∧ "True" ≠ "true" := by
  exact ⟨rfl, by decide⟩

/-- C8 amended: the order-book `full` flag and the `async` flags of place
order and cancel order are placed on the wire as exactly the string
literals `"true"`/`"false"`; the has-fills flag of `list_orders`, however,
is placed as a native boolean, so its wire rendering is the default
conversion `"True"`/`"False"`. -/
theorem boolean_flags_wire_encoding (nonce : Int) (cp quantity limit_price : String)
    (order_id : Int) (full wait buy hf : Bool) :
    List.lookup "full" (list_order_book_params nonce cp full) =
      some (.pstr (if full then "true" else "false"))
    ∧ List.lookup "async" (place_buy_sell_order_params nonce buy cp quantity limit_price wait) =
        some (.pstr (if wait then "true" else "false"))
    ∧ List.lookup "async" (cancel_order_params nonce cp order_id wait) =
        some (.pstr (if wait then "true" else "false"))
    ∧ List.lookup "has_fills" (list_orders_params nonce cp none none (some hf) none none none none) =
        some (.pbool hf)
    ∧ pyStr (.pbool hf) = (if hf then "True" else "False") :=
  ⟨rfl, rfl, rfl, rfl, rfl⟩

/-! ## Claim C9 (corrected) -/

/-- C9 counterexample: with an empty secret in the configuration, no
configuration error is raised: the header is built (the request is signed
with the empty key) and the operation proceeds to the network call,
processing the transport's successful answer normally. -/
theorem empty_secret_not_rejected :
    build_header (cfgStd "https://www.mercadobitcoin.net" "myid" "") "/tapi/v3/"
        [("tapi_method", PyVal.pstr "get_account_info"), ("tapi_nonce", PyVal.pint 1)] =
      .ok ⟨"application/x-www-form-urlencoded", "myid",
           create_tapi_hmac "/tapi/v3/"
             [("tapi_method", PyVal.pstr "get_account_info"), ("tapi_nonce", PyVal.pint 1)] ""⟩
    ∧ execute_tapi (cfgStd "https://www.mercadobitcoin.net" "myid" "")
        [("tapi_method", PyVal.pstr "get_account_info"), ("tapi_nonce", PyVal.pint 1)]
        ⟨200, "OK", some ⟨100, "", .jnull⟩⟩ = .ok (some .jnull) :=
  ⟨rfl, rfl⟩

/-- C9 amended: a configuration whose `MercadoBitcoin` section lacks the
`TapiSecret` key makes every operation raise `KeyError` during header
construction — before and independently of any transport answer — and
that error propagates to the caller; an empty secret, however, is not
detected: the request is signed with the empty key and sent, the header
build succeeding. -/
theorem missing_key_fails_fast_empty_secret_passes (base id : String)
    (params : List (String × PyVal)) :
    (∀ resp : HttpResponse,
      execute_tapi [("MercadoBitcoin", [("BaseUrl", base), ("TapiID", id)])] params resp =
        .error (.keyError "TapiSecret"))
    ∧ execute_request (cfgStd base id "") params =
        .ok ⟨base ++ "/tapi/v3/",
             ⟨"application/x-www-form-urlencoded", id, create_tapi_hmac "/tapi/v3/" params ""⟩,
             urlencode params⟩ :=
  ⟨fun _ => rfl, rfl⟩

/-! ## Claim C10 -/

/-- C10: `get_account_info` with the empty list as asset filter behaves
exactly as with no filter at all — the empty list is falsy, so the
no-filter branch runs — and on a successful envelope the full
server-returned balance mapping is returned unfiltered. -/
theorem empty_asset_filter_means_no_filter (cfg : Config) (base id secret : String)
    (nonce : Int) (r msg : String) (pfields : List (String × JVal)) (bal : JVal)
    (hid : configGet cfg "MercadoBitcoin" "TapiID" = .ok id)
    (hsec : configGet cfg "MercadoBitcoin" "TapiSecret" = .ok secret)
    (hbase : configGet cfg "MercadoBitcoin" "BaseUrl" = .ok base)
    (hbal : List.lookup "balance" pfields = some bal) :
    (∀ resp' : HttpResponse,
      get_account_info cfg nonce (some []) resp' = get_account_info cfg nonce none resp')
    ∧ get_account_info cfg nonce (some []) ⟨200, r, some ⟨100, msg, .jobj pfields⟩⟩ =
        .ok bal := by
  constructor
  · intro resp'
    rfl
  · have h := execute_tapi_success cfg (get_account_info_params nonce)
      ⟨200, r, some ⟨100, msg, .jobj pfields⟩⟩ ⟨100, msg, .jobj pfields⟩
      base id secret hid hsec hbase rfl rfl rfl
    simp [get_account_info, h, jSubscript, hbal]

/-- Witness for C10: the empty filter returns the full two-asset balance. -/
theorem empty_asset_filter_means_no_filter_witness :
    (∀ resp' : HttpResponse,
      get_account_info (cfgStd "https://www.mercadobitcoin.net" "myid" "mysecret") 1
          (some []) resp' =
        get_account_info (cfgStd "https://www.mercadobitcoin.net" "myid" "mysecret") 1
          none resp')
    ∧ get_account_info (cfgStd "https://www.mercadobitcoin.net" "myid" "mysecret") 1
        (some [])
        ⟨200, "OK", some ⟨100, "",
          .jobj [("balance", .jobj [("btc", .jnum "1.0"), ("brl", .jnum "500.0")])]⟩⟩ =
      .ok (.jobj [("btc", .jnum "1.0"), ("brl", .jnum "500.0")]) :=
  empty_asset_filter_means_no_filter _ _ _ _ 1 "OK" ""
    [("balance", .jobj [("btc", .jnum "1.0"), ("brl", .jnum "500.0")])]
    (.jobj [("btc", .jnum "1.0"), ("brl", .jnum "500.0")])
    rfl rfl rfl rfl

end MercadoBTC
